import Mathlib

/-!
Shallow embedding of the template-generation and settings-resolution core of
the `prisma-client-py` repository (files `noxfile.py` and
`src/prisma/_config.py`), together with theorems settling the specification
claims about it.

Conventions of the embedding:
- Python sets of features become `Finset Feature`.
- The Jinja template store (a `FileSystemLoader` over `templates/`) is
  modelled as the list of template names returned by `env.list_templates()`;
  `env.get_template(name)` succeeds exactly when `name` is in that list, and
  the `TemplateNotFound` exception is modelled by the membership test.
- `generate` returns `Except String (List String)`: the error message of the
  `RuntimeError` it raises, or the list of template names for which
  `render_template` is invoked, in iteration order.
- Filesystem paths (`pathlib.Path`) are modelled as lists of path segments.
-/

namespace Prisma

/-- The `Feature` enum of `noxfile.py`. -/
inductive Feature where
  | enum
  | json
  | arrays
  | create_many
  | case_sensitivity
deriving DecidableEq, Repr

/-- The `Defaults` pydantic model of `noxfile.py`. -/
structure Defaults where
  case_sensitive_filtering : Bool
deriving DecidableEq, Repr

/-- The `DatabaseConfig` TypedDict of `noxfile.py`. -/
structure DatabaseConfig where
  disable_features : Finset Feature
  defaults : Defaults
deriving DecidableEq

/-- The `CONFIG` dict of `noxfile.py`; `CONFIG.get(target)` is modelled as a
function returning `none` for keys not present. -/
def CONFIG (target : String) : Option DatabaseConfig :=
  if target = "postgresql" then
    some { disable_features := ∅
           defaults := { case_sensitive_filtering := true } }
  else if target = "sqlite" then
    some { disable_features :=
             { Feature.enum, Feature.json, Feature.arrays,
               Feature.create_many, Feature.case_sensitivity }
           defaults := { case_sensitive_filtering := false } }
  else
    none

/-- The `TEMPLATE_TO_FEATURE` dict of `noxfile.py`; `.get(template)` is
modelled as a function returning `none` for keys not present. -/
def TEMPLATE_TO_FEATURE (template : String) : Option Feature :=
  if template = "base/test_enums.py.jinja" then some Feature.enum
  else if template = "base/test_arrays.py.jinja" then some Feature.arrays
  else if template = "base/test_create_many.py.jinja" then some Feature.create_many
  else if template = "base/test_case_sensitivity.py.jinja" then some Feature.case_sensitivity
  else if template = "base/types/test_json.py.jinja" then some Feature.json
  else none

/-- Python `str.startswith`, on the underlying character lists. -/
def startswith (s pre : String) : Bool :=
  pre.data.isPrefixOf s.data

/-- Python `str.replace(pat, rep, 1)` on character lists: replace the first
occurrence of `pat` (matching Python, an empty `pat` matches at the start). -/
def replaceFirstAux (pat rep : List Char) : List Char → List Char
  | [] => if pat.isPrefixOf ([] : List Char) then rep else []
  | c :: rest =>
    if pat.isPrefixOf (c :: rest) then rep ++ (c :: rest).drop pat.length
    else c :: replaceFirstAux pat rep rest

/-- Python `template.replace(pat, rep, 1)`. -/
def replaceFirst (s pat rep : String) : String :=
  String.mk (replaceFirstAux pat.data rep.data s.data)

/-- The per-template decision of the loop body of `generate` in `noxfile.py`:
`true` exactly when the loop reaches the `render_template` call for
`template`. `templates` is the list returned by `env.list_templates()`, so
`env.get_template(name)` raises `TemplateNotFound` iff `name ∉ templates`. -/
def shouldRender (templates : List String) (target : String)
    (disabled : Finset Feature) (template : String) : Bool :=
  if startswith template "base" then
    let name := replaceFirst template "base" target
    if name ∈ templates then
      false
    else
      match TEMPLATE_TO_FEATURE template with
      | some feature => decide (feature ∉ disabled)
      | none => true
  else
    startswith template target

/-- `generate(target)` from `noxfile.py`: raises (`Except.error`) when the
target has no `CONFIG` entry, otherwise renders (collects) exactly the
templates selected by the loop, in order. -/
def generate (templates : List String) (target : String) :
    Except String (List String) :=
  match CONFIG target with
  | none => Except.error ("No database config for " ++ target)
  | some config =>
    Except.ok (templates.filter (shouldRender templates target config.disable_features))

/-- `getattr(Feature, feature)` for the five member names of the enum;
`none` models the `AttributeError` raised for a non-member name. -/
def featureOfString (feature : String) : Option Feature :=
  if feature = "enum" then some Feature.enum
  else if feature = "json" then some Feature.json
  else if feature = "arrays" then some Feature.arrays
  else if feature = "create_many" then some Feature.create_many
  else if feature = "case_sensitivity" then some Feature.case_sensitivity
  else none

/-- `has_feature(config, feature)` from `noxfile.py`: looks the name up in the
`Feature` enum and tests that the member is not in `config['disable_features']`. -/
def has_feature (config : DatabaseConfig) (feature : String) : Option Bool :=
  (featureOfString feature).map (fun f => decide (f ∉ config.disable_features))

/-- A filesystem path (`pathlib.Path`), as its list of segments. -/
abbrev FsPath := List String

/-- The process environment, restricted to the variables `_config.py` binds
via `Field(env=...)`; field names are the environment variable names.
`PRISMA_BINARY_CACHE_DIR` carries an already-parsed path, as pydantic coerces
the raw string to `pathlib.Path`. -/
structure Env where
  PRISMA_ENGINE_VERSION : Option String
  PRISMA_CLI_URL : Option String
  PRISMA_ENGINE_URL : Option String
  PRISMA_BINARY_CACHE_DIR : Option FsPath

/-- One pydantic settings source: for each field of `DefaultConfig`, the
value it supplies, if any. `binary_cache_dir` values are themselves optional
(the field's type is `Union[Path, None]`), hence the nested `Option`. -/
structure SourceMap where
  prisma_version : Option String
  engine_version : Option String
  prisma_url : Option String
  engine_url : Option String
  binary_cache_dir : Option (Option FsPath)

/-- A source supplying no field: the `file_secret_settings` source of
pydantic `BaseSettings` when no secrets directory is configured, and the
table used by `Config.load` when `pyproject.toml` is absent. -/
def emptySource : SourceMap :=
  { prisma_version := none
    engine_version := none
    prisma_url := none
    engine_url := none
    binary_cache_dir := none }

/-- The environment source for `DefaultConfig`: each field reads the
environment variable named in its `Field(env=...)` declaration;
`prisma_version` declares no environment binding. -/
def envSource (env : Env) : SourceMap :=
  { prisma_version := none
    engine_version := env.PRISMA_ENGINE_VERSION
    prisma_url := env.PRISMA_CLI_URL
    engine_url := env.PRISMA_ENGINE_URL
    binary_cache_dir := env.PRISMA_BINARY_CACHE_DIR.map some }

/-- `DefaultConfig.Config.customise_sources` from `_config.py`: the sources,
highest precedence first — environment settings before init settings before
file-secret settings. -/
def customise_sources (init_settings env_settings file_secret_settings : SourceMap) :
    List SourceMap :=
  [env_settings, init_settings, file_secret_settings]

/-- First value supplied by a source list, if any. -/
def firstSome {α : Type} : List (Option α) → Option α
  | [] => none
  | some v :: _ => some v
  | none :: rest => firstSome rest

/-- Pydantic field resolution: the first source (in precedence order) that
supplies the field wins, else the field's declared default. -/
def resolveField {α : Type} (sources : List SourceMap)
    (get : SourceMap → Option α) (default : α) : α :=
  (firstSome (sources.map get)).getD default

/-- The field defaults declared in `DefaultConfig`. -/
def prismaVersionDefault : String := "3.13.0"

/-- Default of `DefaultConfig.engine_version`. -/
def engineVersionDefault : String := "efdf9b1183dddfd4258cd181a72125755215ab7b"

/-- Default of `DefaultConfig.prisma_url`. -/
def prismaUrlDefault : String :=
  "https://prisma-photongo.s3-eu-west-1.amazonaws.com/prisma-cli-{version}-{platform}.gz"

/-- Default of `DefaultConfig.engine_url`. -/
def engineUrlDefault : String :=
  "https://binaries.prisma.sh/all_commits/{0}/{1}/{2}.gz"

/-- A fully resolved `DefaultConfig` instance. -/
structure DefaultConfig where
  prisma_version : String
  engine_version : String
  prisma_url : String
  engine_url : String
  binary_cache_dir : Option FsPath
deriving DecidableEq

/-- Pydantic `BaseSettings` construction for `DefaultConfig`: resolve every
field through the sources returned by `customise_sources`, falling back to
the declared defaults. -/
def resolveSettings (init_settings env_settings file_secret_settings : SourceMap) :
    DefaultConfig :=
  let srcs := customise_sources init_settings env_settings file_secret_settings
  { prisma_version := resolveField srcs (fun s => s.prisma_version) prismaVersionDefault
    engine_version := resolveField srcs (fun s => s.engine_version) engineVersionDefault
    prisma_url := resolveField srcs (fun s => s.prisma_url) prismaUrlDefault
    engine_url := resolveField srcs (fun s => s.engine_url) engineUrlDefault
    binary_cache_dir := resolveField srcs (fun s => s.binary_cache_dir) none }

/-- `DefaultConfig.parse_obj(obj)`: the mapping `obj` enters as the init
(keyword-argument) source, the environment source comes from the process
environment, and no secrets source is configured. -/
def DefaultConfig.parse_obj (env : Env) (obj : SourceMap) : DefaultConfig :=
  resolveSettings obj (envSource env) emptySource

/-- `config.dict()`: every field of the instance, as an init source. -/
def DefaultConfig.dict (c : DefaultConfig) : SourceMap :=
  { prisma_version := some c.prisma_version
    engine_version := some c.engine_version
    prisma_url := some c.prisma_url
    engine_url := some c.engine_url
    binary_cache_dir := some c.binary_cache_dir }

/-- The `Config` subclass of `_config.py`: `binary_cache_dir` is narrowed to
a required `Path`. -/
structure Config where
  prisma_version : String
  engine_version : String
  prisma_url : String
  engine_url : String
  binary_cache_dir : FsPath
deriving DecidableEq

/-- `Config.parse_obj(obj)`: like `DefaultConfig.parse_obj` (the
`customise_sources` order is inherited), except that the redeclared
`binary_cache_dir` field no longer carries the `PRISMA_BINARY_CACHE_DIR`
environment binding, and validation fails (`none`) when the required
`binary_cache_dir` resolves to no path. -/
def Config.parse_obj (env : Env) (obj : SourceMap) : Option Config :=
  let envSrc := { envSource env with binary_cache_dir := none }
  let d := resolveSettings obj envSrc emptySource
  match d.binary_cache_dir with
  | none => none
  | some p =>
    some { prisma_version := d.prisma_version
           engine_version := d.engine_version
           prisma_url := d.prisma_url
           engine_url := d.engine_url
           binary_cache_dir := p }

/-- The engines cache path `Path(tempfile.gettempdir()) / 'prisma' /
'binaries' / 'engines' / engine_version`; `tmpdir` stands for
`tempfile.gettempdir()`. -/
def enginesCachePath (tmpdir : FsPath) (engine_version : String) : FsPath :=
  tmpdir ++ ["prisma", "binaries", "engines", engine_version]

/-- `Config.from_base(config)` from `_config.py`. The Python method mutates
its argument in place when `binary_cache_dir` is `None`; the embedding
returns the (possibly mutated) argument as the first component and the
result of `cls.parse_obj(config.dict())` as the second. -/
def Config.from_base (tmpdir : FsPath) (env : Env) (config : DefaultConfig) :
    DefaultConfig × Option Config :=
  let config' :=
    if config.binary_cache_dir = none then
      { config with
          binary_cache_dir := some (enginesCachePath tmpdir config.engine_version) }
    else
      config
  (config', Config.parse_obj env config'.dict)

/-- `Config.load(path)` from `_config.py`: `pyproject` is the `[tool.prisma]`
table of the project file when the file exists (`none` models a missing
file; the `.get` fallbacks to `{}` are folded into the parsed table). -/
def Config.load (tmpdir : FsPath) (env : Env) (pyproject : Option SourceMap) :
    Option Config :=
  let config := pyproject.getD emptySource
  (Config.from_base tmpdir env (DefaultConfig.parse_obj env config)).2

/-- The observable state of one `LazyConfigProxy` instance. `cache` holds the
heap identity (an abstract object id) of the memoized `Config` built by
`Config.load`, or `none` before the first access; `loads` counts the
`Config.load` invocations. Each load yields a fresh object id, so two ids
are equal exactly when they are the identical Python object. -/
structure ProxyState where
  cache : Option Nat
  loads : Nat
deriving DecidableEq

/-- A fresh `LazyConfigProxy()`: nothing cached, no load performed. -/
def ProxyState.initial : ProxyState := { cache := none, loads := 0 }

/-- `LazyConfigProxy.__get_proxied`, memoized with `lru_cache` keyed on the
instance: return the cached object, or call `Config.load` once (producing a
fresh object id) and cache the result. -/
def get_proxied (s : ProxyState) : ProxyState × Nat :=
  match s.cache with
  | some i => (s, i)
  | none => ({ cache := some s.loads, loads := s.loads + 1 }, s.loads)

/-- `LazyConfigProxy.__getattr__`: every attribute access delegates to the
object returned by `__get_proxied`. -/
def LazyConfigProxy.getattr (s : ProxyState) : ProxyState × Nat :=
  get_proxied s

/-- A sequence of `n` attribute accesses on one proxy: the final state and
the list of object ids the accesses delegated to, in order. -/
def accesses : Nat → ProxyState → ProxyState × List Nat
  | 0, s => (s, [])
  | n + 1, s =>
    let p := LazyConfigProxy.getattr s
    let q := accesses n p.1
    (q.1, p.2 :: q.2)

/-- The only keys of the `CONFIG` dict are `postgresql` and `sqlite`. -/
lemma config_target_cases {T : String} {c : DatabaseConfig}
    (hc : CONFIG T = some c) : T = "postgresql" ∨ T = "sqlite" := by
  unfold CONFIG at hc
  split_ifs at hc with h1 h2
  · exact Or.inl h1
  · exact Or.inr h2

/-- Every key of the `TEMPLATE_TO_FEATURE` dict starts with `base`. -/
lemma feature_template_base {t : String} {f : Feature}
    (hf : TEMPLATE_TO_FEATURE t = some f) : startswith t "base" = true := by
  unfold TEMPLATE_TO_FEATURE at hf
  split_ifs at hf with h1 h2 h3 h4 h5
  · rw [h1]; decide
  · rw [h2]; decide
  · rw [h3]; decide
  · rw [h4]; decide
  · rw [h5]; decide

/-- A template in a registered target namespace is not in the base namespace:
the registered target names start with `p` or `s`, not `b`. -/
lemma not_startswith_base {T t : String} {c : DatabaseConfig}
    (hc : CONFIG T = some c) (h : startswith t T = true) :
    startswith t "base" = false := by
  have hT := config_target_cases hc
  rw [startswith, List.isPrefixOf_iff_prefix] at h
  rw [startswith]
  by_contra hb
  rw [Bool.not_eq_false, List.isPrefixOf_iff_prefix] at hb
  rcases hT with rfl | rfl <;>
    rcases List.prefix_or_prefix_of_prefix hb h with hpq | hpq <;>
    revert hpq <;> decide

/-- With a registered target, `generate` renders exactly the templates the
loop selects. -/
lemma generate_ok {templates : List String} {T : String} {c : DatabaseConfig}
    (hc : CONFIG T = some c) :
    generate templates T =
      Except.ok (templates.filter (shouldRender templates T c.disable_features)) := by
  unfold generate
  rw [hc]

/-- C1: for every target `T` with a `DatabaseConfig` and every base template
mapped by `TEMPLATE_TO_FEATURE` to a feature disabled for `T`, `generate`
never renders that template for `T`. -/
theorem c1_disabled_feature_never_rendered
    (templates : List String) (T : String) (c : DatabaseConfig)
    (hc : CONFIG T = some c) (t : String) (f : Feature)
    (hf : TEMPLATE_TO_FEATURE t = some f) (hdis : f ∈ c.disable_features)
    (r : List String) (hr : generate templates T = Except.ok r) :
    t ∉ r := by
  rw [generate_ok hc] at hr
  injection hr with hr
  subst hr
  intro hmem
  rw [List.mem_filter] at hmem
  have hs := hmem.2
  rw [shouldRender] at hs
  rw [feature_template_base hf] at hs
  simp only [if_true, hf] at hs
  split at hs
  · exact Bool.false_ne_true hs
  · rw [decide_eq_true_iff] at hs
    exact hs hdis

/-- C2: for every target `T` with a `DatabaseConfig`, (a) a base template
whose target-specific counterpart (base prefix replaced by `T`) exists is
never rendered, and (b) every listed template in `T`'s namespace is rendered,
with no feature gating. -/
theorem c2_override_and_target_namespace
    (templates : List String) (T : String) (c : DatabaseConfig)
    (hc : CONFIG T = some c) (r : List String)
    (hr : generate templates T = Except.ok r) :
    (∀ t, startswith t "base" = true →
        replaceFirst t "base" T ∈ templates → t ∉ r) ∧
    (∀ t, t ∈ templates → startswith t T = true → t ∈ r) := by
  rw [generate_ok hc] at hr
  injection hr with hr
  subst hr
  constructor
  · intro t hb hov hmem
    rw [List.mem_filter] at hmem
    have hs := hmem.2
    rw [shouldRender, hb] at hs
    simp only [if_true, hov, if_pos] at hs
    exact Bool.false_ne_true hs
  · intro t hmem htgt
    rw [List.mem_filter]
    refine ⟨hmem, ?_⟩
    rw [shouldRender, not_startswith_base hc htgt]
    simp only [Bool.false_eq_true, if_false]
    exact htgt

/-- C3: for every `DatabaseConfig` and every feature name, `has_feature`
returns a boolean that is `true` exactly when the feature is not listed in
the config's `disable_features` set (side-effect freedom holds by
construction: the embedding is a pure function of its arguments). -/
theorem c3_has_feature_true_unless_disabled
    (c : DatabaseConfig) (s : String) (f : Feature)
    (hf : featureOfString s = some f) :
    ∃ b : Bool, has_feature c s = some b ∧
      (b = true ↔ f ∉ c.disable_features) := by
  refine ⟨decide (f ∉ c.disable_features), ?_, decide_eq_true_iff⟩
  rw [has_feature, hf]
  rfl

/-- Witness for C3 at concrete inputs: the sqlite config with feature
name `json`, which is disabled there. -/
theorem c3_witness :
    ∃ b : Bool,
      has_feature
        { disable_features :=
            { Feature.enum, Feature.json, Feature.arrays,
              Feature.create_many, Feature.case_sensitivity }
          defaults := { case_sensitive_filtering := false } } "json" = some b ∧
      (b = true ↔ Feature.json ∉
        ({ Feature.enum, Feature.json, Feature.arrays,
           Feature.create_many, Feature.case_sensitivity } : Finset Feature)) :=
  c3_has_feature_true_unless_disabled _ "json" Feature.json (by decide)

/-- C7: the registry maps `postgresql` to a config with no disabled features,
and `sqlite` to a config disabling exactly
`{enum, json, arrays, create_many, case_sensitivity}` with
`case_sensitive_filtering = False`. -/
theorem c7_registry_contents :
    (∃ c, CONFIG "postgresql" = some c ∧ c.disable_features = ∅ ∧
      c.defaults.case_sensitive_filtering = true) ∧
    (∃ c, CONFIG "sqlite" = some c ∧
      c.disable_features =
        { Feature.enum, Feature.json, Feature.arrays,
          Feature.create_many, Feature.case_sensitivity } ∧
      c.defaults.case_sensitive_filtering = false) := by
  constructor
  · exact ⟨_, rfl, rfl, rfl⟩
  · exact ⟨_, rfl, rfl, rfl⟩

/-- C8: for a target with no registry entry, `generate` fails with an error
whose message contains the target name, independently of the template list
(so before any template is considered or rendered). -/
theorem c8_unknown_target_errors (templates : List String) (T : String)
    (h : CONFIG T = none) :
    generate templates T = Except.error ("No database config for " ++ T) ∧
    ∃ pre, "No database config for " ++ T = pre ++ T := by
  refine ⟨?_, "No database config for ", rfl⟩
  unfold generate
  rw [h]

/-- Witness for C8 at a concrete unregistered target. -/
theorem c8_witness :
    generate ["base/test_enums.py.jinja"] "mysql" =
      Except.error ("No database config for " ++ "mysql") ∧
    ∃ pre, "No database config for " ++ "mysql" = pre ++ "mysql" :=
  c8_unknown_target_errors ["base/test_enums.py.jinja"] "mysql" (by decide)

/-- C9: when the probe for a target-specific override of a base template
fails (the override is not in the template list), generation continues
normally: the base template passes to feature gating and, when not gated
out, is rendered, and `generate` still succeeds. -/
theorem c9_missing_override_is_negative
    (templates : List String) (T : String) (c : DatabaseConfig)
    (hc : CONFIG T = some c) (t : String)
    (ht : t ∈ templates) (hb : startswith t "base" = true)
    (hno : replaceFirst t "base" T ∉ templates)
    (hfeat : ∀ f, TEMPLATE_TO_FEATURE t = some f → f ∉ c.disable_features) :
    ∃ r, generate templates T = Except.ok r ∧ t ∈ r := by
  refine ⟨_, generate_ok hc, ?_⟩
  rw [List.mem_filter]
  refine ⟨ht, ?_⟩
  rw [shouldRender, hb]
  simp only [if_true]
  rw [if_neg hno]
  cases hTF : TEMPLATE_TO_FEATURE t with
  | none => rfl
  | some f => exact decide_eq_true (hfeat f hTF)

/-- Witness for C9 at concrete inputs: a feature-gated base template with no
postgresql override is rendered for postgresql. -/
theorem c9_witness :
    ∃ r, generate ["base/test_arrays.py.jinja"] "postgresql" = Except.ok r ∧
      "base/test_arrays.py.jinja" ∈ r :=
  c9_missing_override_is_negative ["base/test_arrays.py.jinja"] "postgresql"
    { disable_features := ∅, defaults := { case_sensitive_filtering := true } }
    (by decide) "base/test_arrays.py.jinja" (by decide) (by decide) (by decide)
    (fun f _ => Finset.not_mem_empty f)

/-- Witness for C1 at concrete inputs: the enums base template is not
rendered for sqlite, which disables the enum feature. -/
theorem c1_witness :
    "base/test_enums.py.jinja" ∉ ([] : List String) :=
  c1_disabled_feature_never_rendered ["base/test_enums.py.jinja"] "sqlite"
    { disable_features :=
        { Feature.enum, Feature.json, Feature.arrays,
          Feature.create_many, Feature.case_sensitivity }
      defaults := { case_sensitive_filtering := false } }
    (by decide) "base/test_enums.py.jinja" Feature.enum (by decide) (by decide)
    [] rfl

/-- Witness for C2 at concrete inputs: the base enums template is overridden
by a postgresql-specific template, which itself is rendered. -/
theorem c2_witness :
    "base/test_enums.py.jinja" ∉ ["postgresql/test_enums.py.jinja"] ∧
    "postgresql/test_enums.py.jinja" ∈ ["postgresql/test_enums.py.jinja"] := by
  have h := c2_override_and_target_namespace
    ["base/test_enums.py.jinja", "postgresql/test_enums.py.jinja"] "postgresql"
    { disable_features := ∅, defaults := { case_sensitive_filtering := true } }
    (by decide) ["postgresql/test_enums.py.jinja"] rfl
  exact ⟨h.1 "base/test_enums.py.jinja" (by decide) (by decide),
         h.2 "postgresql/test_enums.py.jinja" (by decide) (by decide)⟩

/-- An environment with none of the prisma variables set. -/
def emptyEnv : Env :=
  { PRISMA_ENGINE_VERSION := none
    PRISMA_CLI_URL := none
    PRISMA_ENGINE_URL := none
    PRISMA_BINARY_CACHE_DIR := none }

/-- The first component of `Config.from_base` (the argument after the call):
mutated exactly when its `binary_cache_dir` was `None`. -/
lemma from_base_fst (tmpdir : FsPath) (env : Env) (c : DefaultConfig) :
    (Config.from_base tmpdir env c).1 =
      if c.binary_cache_dir = none then
        { c with binary_cache_dir := some (enginesCachePath tmpdir c.engine_version) }
      else c := rfl

/-- The second component of `Config.from_base` is `cls.parse_obj` applied to
the dict of the (possibly mutated) argument. -/
lemma from_base_snd (tmpdir : FsPath) (env : Env) (c : DefaultConfig) :
    (Config.from_base tmpdir env c).2 =
      Config.parse_obj env ((Config.from_base tmpdir env c).1).dict := rfl

/-- Evaluation of `Config.parse_obj` on the dict of a `DefaultConfig` whose
`binary_cache_dir` is present: validation succeeds, the environment still
overrides the inherited fields, and `binary_cache_dir` is taken from the
dict. -/
lemma config_parse_obj_dict (env : Env) (c : DefaultConfig) (p : FsPath)
    (hbcd : c.binary_cache_dir = some p) :
    Config.parse_obj env c.dict =
      some { prisma_version := c.prisma_version
             engine_version := env.PRISMA_ENGINE_VERSION.getD c.engine_version
             prisma_url := env.PRISMA_CLI_URL.getD c.prisma_url
             engine_url := env.PRISMA_ENGINE_URL.getD c.engine_url
             binary_cache_dir := p } := by
  cases hE : env.PRISMA_ENGINE_VERSION <;>
    cases hU : env.PRISMA_CLI_URL <;>
      cases hV : env.PRISMA_ENGINE_URL <;>
        simp [Config.parse_obj, DefaultConfig.dict, hbcd, resolveSettings,
          resolveField, customise_sources, firstSome, envSource, emptySource,
          hE, hU, hV]

/-- C4: field resolution applies the sources in the order returned by
`customise_sources` — environment first, then init values (which is how the
project-file table enters through `parse_obj` in `Config.load`), then the
file-secret source, then the declared default — so an environment
`PRISMA_ENGINE_VERSION = X` beats any conflicting project-file value `Y` in
`Config.load`. -/
theorem c4_env_beats_file
    (tmpdir : FsPath) (env : Env) (X : String)
    (hX : env.PRISMA_ENGINE_VERSION = some X)
    (tbl : SourceMap) (Y : String) (hY : tbl.engine_version = some Y) :
    (∀ i e f : SourceMap,
        (resolveSettings i e f).engine_version =
          (e.engine_version.orElse (fun _ =>
            i.engine_version.orElse (fun _ =>
              f.engine_version))).getD engineVersionDefault) ∧
    ∃ cfg, Config.load tmpdir env (some tbl) = some cfg ∧
      cfg.engine_version = X := by
  constructor
  · intro i e f
    cases he : e.engine_version <;> cases hi : i.engine_version <;>
      cases hf2 : f.engine_version <;>
        simp [resolveSettings, resolveField, customise_sources, firstSome,
          he, hi, hf2, Option.orElse]
  · have hbase : (DefaultConfig.parse_obj env tbl).engine_version = X := by
      show (firstSome [env.PRISMA_ENGINE_VERSION, tbl.engine_version,
        none]).getD engineVersionDefault = X
      rw [hX]
      rfl
    have hload : Config.load tmpdir env (some tbl) =
        Config.parse_obj env
          ((Config.from_base tmpdir env
            (DefaultConfig.parse_obj env tbl)).1).dict := rfl
    have main : ∀ c2 : DefaultConfig, (∃ p, c2.binary_cache_dir = some p) →
        ∃ cfg, Config.parse_obj env c2.dict = some cfg ∧
          cfg.engine_version = env.PRISMA_ENGINE_VERSION.getD c2.engine_version := by
      intro c2 hp2
      obtain ⟨p, hp⟩ := hp2
      exact ⟨{ prisma_version := c2.prisma_version
               engine_version := env.PRISMA_ENGINE_VERSION.getD c2.engine_version
               prisma_url := env.PRISMA_CLI_URL.getD c2.prisma_url
               engine_url := env.PRISMA_ENGINE_URL.getD c2.engine_url
               binary_cache_dir := p }, config_parse_obj_dict env c2 p hp, rfl⟩
    have hfst : ∃ p,
        ((Config.from_base tmpdir env (DefaultConfig.parse_obj env tbl)).1).binary_cache_dir = some p ∧
        ((Config.from_base tmpdir env (DefaultConfig.parse_obj env tbl)).1).engine_version =
          (DefaultConfig.parse_obj env tbl).engine_version := by
      rcases hcase : (DefaultConfig.parse_obj env tbl).binary_cache_dir with _ | q
      · rw [from_base_fst, if_pos hcase]
        exact ⟨enginesCachePath tmpdir (DefaultConfig.parse_obj env tbl).engine_version, rfl, rfl⟩
      · have hne : ¬ (DefaultConfig.parse_obj env tbl).binary_cache_dir = none := by
          rw [hcase]
          exact fun h => Option.noConfusion h
        rw [from_base_fst, if_neg hne]
        exact ⟨q, hcase, rfl⟩
    obtain ⟨p, hp, heng⟩ := hfst
    obtain ⟨cfg, hcfg, hcfgeng⟩ := main _ ⟨p, hp⟩
    refine ⟨cfg, ?_, ?_⟩
    · rw [hload]
      exact hcfg
    · rw [hcfgeng, heng, hbase, hX, Option.getD_some]

/-- Witness for C4 at concrete inputs: environment engine version `X`
against a conflicting project-file value `Y`. -/
theorem c4_witness :
    ∃ cfg, Config.load ["tmp"]
        { emptyEnv with PRISMA_ENGINE_VERSION := some "X" }
        (some { emptySource with engine_version := some "Y" }) = some cfg ∧
      cfg.engine_version = "X" :=
  (c4_env_beats_file ["tmp"]
    { emptyEnv with PRISMA_ENGINE_VERSION := some "X" } "X" rfl
    { emptySource with engine_version := some "Y" } "Y" rfl).2

/-- C5: `Config.from_base` derives `binary_cache_dir` from the resolved
engine version exactly when it was not supplied (`None`): the derived path
is the temp-dir engines path, which for engine version `abc` ends with
`prisma/binaries/engines/abc`; a supplied `binary_cache_dir` is kept
unchanged, with no influence from the engine version. -/
theorem c5_binary_cache_dir_derived
    (tmpdir : FsPath) (env : Env) (c : DefaultConfig) :
    (c.binary_cache_dir = none →
      ∀ cfg, (Config.from_base tmpdir env c).2 = some cfg →
        cfg.binary_cache_dir = enginesCachePath tmpdir c.engine_version ∧
        (c.engine_version = "abc" →
          ["prisma", "binaries", "engines", "abc"] <:+ cfg.binary_cache_dir)) ∧
    (∀ p, c.binary_cache_dir = some p →
      ∀ cfg, (Config.from_base tmpdir env c).2 = some cfg →
        cfg.binary_cache_dir = p) := by
  constructor
  · intro hnone cfg hcfg
    rw [from_base_snd, from_base_fst, if_pos hnone,
      config_parse_obj_dict env _ (enginesCachePath tmpdir c.engine_version) rfl]
      at hcfg
    injection hcfg with hcfg
    subst hcfg
    constructor
    · rfl
    · intro habc
      show ["prisma", "binaries", "engines", "abc"] <:+
        enginesCachePath tmpdir c.engine_version
      rw [enginesCachePath, habc]
      exact List.suffix_append tmpdir _
  · intro p hp cfg hcfg
    have hne : ¬ c.binary_cache_dir = none := by
      rw [hp]; exact fun h => Option.noConfusion h
    rw [from_base_snd, from_base_fst, if_neg hne,
      config_parse_obj_dict env c p hp] at hcfg
    injection hcfg with hcfg
    subst hcfg
    rfl

/-- Witness for C5 at concrete inputs: one config with no cache dir and
engine version `abc`, one with a supplied cache dir. -/
theorem c5_witness :
    (({ prisma_version := "3.13.0", engine_version := "abc",
        prisma_url := "u", engine_url := "v",
        binary_cache_dir := ["tmp", "prisma", "binaries", "engines", "abc"] } :
          Config).binary_cache_dir = enginesCachePath ["tmp"] "abc" ∧
      (("abc" : String) = "abc" →
        ["prisma", "binaries", "engines", "abc"] <:+
          (({ prisma_version := "3.13.0", engine_version := "abc",
              prisma_url := "u", engine_url := "v",
              binary_cache_dir :=
                ["tmp", "prisma", "binaries", "engines", "abc"] } :
                Config).binary_cache_dir))) ∧
    (({ prisma_version := "3.13.0", engine_version := "abc",
        prisma_url := "u", engine_url := "v",
        binary_cache_dir := ["kept"] } : Config).binary_cache_dir = ["kept"]) :=
  ⟨(c5_binary_cache_dir_derived ["tmp"] emptyEnv
      { prisma_version := "3.13.0", engine_version := "abc",
        prisma_url := "u", engine_url := "v",
        binary_cache_dir := none }).1 rfl _ rfl,
   (c5_binary_cache_dir_derived ["tmp"] emptyEnv
      { prisma_version := "3.13.0", engine_version := "abc",
        prisma_url := "u", engine_url := "v",
        binary_cache_dir := some ["kept"] }).2 ["kept"] rfl _ rfl⟩

/-- C10: `Config.from_base` mutates its argument in place exactly when the
argument's `binary_cache_dir` is `None`, assigning the derived engines path
and leaving every other field unchanged; an argument with a supplied
`binary_cache_dir` is returned untouched. -/
theorem c10_from_base_mutates_argument
    (tmpdir : FsPath) (env : Env) (c : DefaultConfig) :
    (c.binary_cache_dir = none →
      (Config.from_base tmpdir env c).1 =
        { c with
            binary_cache_dir := some (enginesCachePath tmpdir c.engine_version) }) ∧
    (c.binary_cache_dir ≠ none →
      (Config.from_base tmpdir env c).1 = c) := by
  constructor
  · intro h
    rw [from_base_fst, if_pos h]
  · intro h
    rw [from_base_fst, if_neg h]

/-- Witness for C10 at concrete inputs: an argument without a cache dir is
mutated to carry the derived path, one with a cache dir is left alone. -/
theorem c10_witness :
    ((Config.from_base ["tmp"] emptyEnv
        { prisma_version := "3.13.0", engine_version := "abc",
          prisma_url := "u", engine_url := "v",
          binary_cache_dir := none }).1 =
      { prisma_version := "3.13.0", engine_version := "abc",
        prisma_url := "u", engine_url := "v",
        binary_cache_dir := some (enginesCachePath ["tmp"] "abc") }) ∧
    ((Config.from_base ["tmp"] emptyEnv
        { prisma_version := "3.13.0", engine_version := "abc",
          prisma_url := "u", engine_url := "v",
          binary_cache_dir := some ["kept"] }).1 =
      { prisma_version := "3.13.0", engine_version := "abc",
        prisma_url := "u", engine_url := "v",
        binary_cache_dir := some ["kept"] }) :=
  ⟨(c10_from_base_mutates_argument ["tmp"] emptyEnv _).1 rfl,
   (c10_from_base_mutates_argument ["tmp"] emptyEnv _).2
     (fun h => Option.noConfusion h)⟩

/-- Once the proxy cache is populated with object id 0 after one load,
further accesses return id 0 and change nothing. -/
lemma accesses_cached (n : Nat) :
    accesses n { cache := some 0, loads := 1 } =
      ({ cache := some 0, loads := 1 }, List.replicate n 0) := by
  induction n with
  | zero => rfl
  | succ n ih =>
    simp [accesses, LazyConfigProxy.getattr, get_proxied, ih, List.replicate]

/-- C6: on a fresh `LazyConfigProxy`, any positive number of attribute
accesses triggers exactly one `Config.load` and every access delegates to
the identical cached object (the same object id 0, minted by the single
load), so resolution is idempotent with object identity. -/
theorem c6_proxy_loads_once_and_returns_same_object (n : Nat) (h : 1 ≤ n) :
    (accesses n ProxyState.initial).1.loads = 1 ∧
    (accesses n ProxyState.initial).2 = List.replicate n 0 := by
  cases n with
  | zero => exact absurd h (by decide)
  | succ m =>
    have : accesses (m + 1) ProxyState.initial =
        ({ cache := some 0, loads := 1 }, 0 :: List.replicate m 0) := by
      simp [accesses, LazyConfigProxy.getattr, get_proxied, ProxyState.initial,
        accesses_cached]
    rw [this]
    exact ⟨rfl, rfl⟩

/-- Witness for C6 at a concrete access count. -/
theorem c6_witness :
    (accesses 3 ProxyState.initial).1.loads = 1 ∧
    (accesses 3 ProxyState.initial).2 = List.replicate 3 0 :=
  c6_proxy_loads_once_and_returns_same_object 3 (by decide)

end Prisma
